import Mathlib

/-!
Shallow embedding of `src/vulkano/src/instance/debug.rs` (the debug-callback
subsystem of the vulkano Vulkan wrapper): the filter value types
`MessageSeverity` / `MessageType` and their presets and `BitOr` union, the
bitmask encode/decode between those filters and the native
`DebugUtilsMessageSeverityFlagsEXT` / `DebugUtilsMessageTypeFlagsEXT` bits,
the C-ABI trampoline `callback` (message decoding, user-callback invocation
under `catch_unwind`, fixed `VK_FALSE` return), and the registration entry
points `DebugCallback::new` / `DebugCallback::errors_and_warnings`.

Machine integers are modelled as `Nat`; C strings are modelled as the list of
their bytes (without the terminating NUL); a pointer that may be null is an
`Option`; Rust computations that may panic return a `PanicOr` value.
-/

set_option autoImplicit false

namespace VkDebug

/-- Outcome of a Rust computation that may `panic!`: either a normal value or
an unwinding panic. A `panic!` in Rust unwinds the stack (dropping live local
owned values on the way). -/
inductive PanicOr (α : Type) where
  | ok (a : α) : PanicOr α
  | panicked : PanicOr α
  deriving DecidableEq, Repr

/-- `Result::bind`-like sequencing through a possible panic: a panic in the
first step propagates. -/
def PanicOr.bind {α β : Type} (x : PanicOr α) (f : α → PanicOr β) : PanicOr β :=
  match x with
  | PanicOr.ok a => f a
  | PanicOr.panicked => PanicOr.panicked

/-- `std::panic::catch_unwind`: converts an unwinding panic of the guarded
computation into an `Except.error`, so the caller observes a normal value
either way. Mirrors the call at debug.rs:131. -/
def catch_unwind {α : Type} (r : PanicOr α) : Except Unit α :=
  match r with
  | PanicOr.ok a => Except.ok a
  | PanicOr.panicked => Except.error ()

/-- `ash::vk::FALSE`, the fixed `Bool32` value the trampoline returns. -/
def vkFALSE : Nat := 0

/-! ### Filter model (debug.rs lines 244-412) -/

/-- `MessageSeverity` (debug.rs:246): four independent boolean severity
flags. -/
structure MessageSeverity where
  error : Bool
  warning : Bool
  information : Bool
  verbose : Bool
  deriving DecidableEq, Repr, Fintype

/-- `MessageSeverity::none()` (debug.rs:307): all fields `false`. -/
def MessageSeverity.none : MessageSeverity :=
  { error := false, warning := false, information := false, verbose := false }

/-- `MessageSeverity::errors()` (debug.rs:260). -/
def MessageSeverity.errors : MessageSeverity :=
  { MessageSeverity.none with error := true }

/-- `MessageSeverity::warnings()` (debug.rs:269). -/
def MessageSeverity.warnings : MessageSeverity :=
  { MessageSeverity.none with warning := true }

/-- `MessageSeverity::information()` (debug.rs:278). -/
def MessageSeverity.informationOnly : MessageSeverity :=
  { MessageSeverity.none with information := true }

/-- `MessageSeverity::verbose()` (debug.rs:287). -/
def MessageSeverity.verboseOnly : MessageSeverity :=
  { MessageSeverity.none with verbose := true }

/-- `MessageSeverity::errors_and_warnings()` (debug.rs:297). -/
def MessageSeverity.errors_and_warnings : MessageSeverity :=
  { MessageSeverity.none with error := true, warning := true }

/-- `MessageSeverity::all()` (debug.rs:318): all fields `true`. -/
def MessageSeverity.all : MessageSeverity :=
  { error := true, warning := true, information := true, verbose := true }

/-- `impl BitOr for MessageSeverity` (debug.rs:328-338): per-flag boolean
or. -/
def MessageSeverity.bitor (a b : MessageSeverity) : MessageSeverity :=
  { error := a.error || b.error
    warning := a.warning || b.warning
    information := a.information || b.information
    verbose := a.verbose || b.verbose }

instance : OrOp MessageSeverity := ⟨MessageSeverity.bitor⟩

/-- `MessageType` (debug.rs:342): three independent boolean category
flags. -/
structure MessageType where
  general : Bool
  validation : Bool
  performance : Bool
  deriving DecidableEq, Repr, Fintype

/-- `MessageType::general()` (debug.rs:354); named `generalOnly` here because
Lean reserves `MessageType.general` for the structure field. -/
def MessageType.generalOnly : MessageType :=
  { general := true, validation := false, performance := false }

/-- `MessageType::validation()` (debug.rs:364). -/
def MessageType.validationOnly : MessageType :=
  { general := false, validation := true, performance := false }

/-- `MessageType::performance()` (debug.rs:374). -/
def MessageType.performanceOnly : MessageType :=
  { general := false, validation := false, performance := true }

/-- `MessageType::all()` (debug.rs:384). -/
def MessageType.all : MessageType :=
  { general := true, validation := true, performance := true }

/-- `MessageType::none()` (debug.rs:394). -/
def MessageType.none : MessageType :=
  { general := false, validation := false, performance := false }

/-- `impl BitOr for MessageType` (debug.rs:403-412): per-flag boolean or. -/
def MessageType.bitor (a b : MessageType) : MessageType :=
  { general := a.general || b.general
    validation := a.validation || b.validation
    performance := a.performance || b.performance }

instance : OrOp MessageType := ⟨MessageType.bitor⟩

/-! ### Native bitmask constants

Values of `ash::vk::DebugUtilsMessageSeverityFlagsEXT` and
`ash::vk::DebugUtilsMessageTypeFlagsEXT` from the Vulkan specification
(the `ash` crate is an external collaborator of this repository). -/

def SEVERITY_VERBOSE : Nat := 1

def SEVERITY_INFO : Nat := 16

def SEVERITY_WARNING : Nat := 256

def SEVERITY_ERROR : Nat := 4096

def TYPE_GENERAL : Nat := 1

def TYPE_VALIDATION : Nat := 2

def TYPE_PERFORMANCE : Nat := 4

/-! ### Bitmask codec -/

/-- Encoding of a `MessageSeverity` filter into the native severity bitmask,
mirroring the sequential `|=` block of `DebugCallback::new`
(debug.rs:138-153): information, then warning, then error, then verbose. -/
def MessageSeverity.toNativeBits (s : MessageSeverity) : Nat :=
  let flags : Nat := 0
  let flags := if s.information then flags ||| SEVERITY_INFO else flags
  let flags := if s.warning then flags ||| SEVERITY_WARNING else flags
  let flags := if s.error then flags ||| SEVERITY_ERROR else flags
  let flags := if s.verbose then flags ||| SEVERITY_VERBOSE else flags
  flags

/-- Encoding of a `MessageType` filter into the native type bitmask,
mirroring debug.rs:155-167: general, then validation, then performance. -/
def MessageType.toNativeBits (t : MessageType) : Nat :=
  let flags : Nat := 0
  let flags := if t.general then flags ||| TYPE_GENERAL else flags
  let flags := if t.validation then flags ||| TYPE_VALIDATION else flags
  let flags := if t.performance then flags ||| TYPE_PERFORMANCE else flags
  flags

/-- Decoding of a native severity bitmask into observed `MessageSeverity`
flags, mirroring the `!(severity & BIT).is_empty()` tests of the trampoline
(debug.rs:108-117). -/
def MessageSeverity.fromNativeBits (bits : Nat) : MessageSeverity :=
  { information := bits &&& SEVERITY_INFO != 0
    warning := bits &&& SEVERITY_WARNING != 0
    error := bits &&& SEVERITY_ERROR != 0
    verbose := bits &&& SEVERITY_VERBOSE != 0 }

/-- Decoding of a native type bitmask into observed `MessageType` flags,
mirroring debug.rs:118-124. -/
def MessageType.fromNativeBits (bits : Nat) : MessageType :=
  { general := bits &&& TYPE_GENERAL != 0
    validation := bits &&& TYPE_VALIDATION != 0
    performance := bits &&& TYPE_PERFORMANCE != 0 }

/-! ### C string text decoding

`CStr::to_str` validates that the bytes of the C string are UTF-8 and
returns them as a `&str` view (same bytes) on success. `utf8Valid` is the
standard UTF-8 well-formedness check that `str::from_utf8` performs
(RFC 3629: shortest forms only, no surrogates, max U+10FFFF). -/

/-- A UTF-8 continuation byte: `0x80..=0xBF`. -/
def utf8IsCont (b : Nat) : Bool := 0x80 ≤ b && b ≤ 0xBF

/-- UTF-8 validity of a byte sequence, as checked by Rust
`core::str::from_utf8` (used by `CStr::to_str`). -/
def utf8Valid : List Nat → Bool
  | [] => true
  | b :: rest =>
    if b ≤ 0x7F then
      utf8Valid rest
    else if 0xC2 ≤ b && b ≤ 0xDF then
      match rest with
      | c1 :: rest1 => utf8IsCont c1 && utf8Valid rest1
      | [] => false
    else if b == 0xE0 then
      match rest with
      | c1 :: c2 :: rest2 =>
        (0xA0 ≤ c1 && c1 ≤ 0xBF) && utf8IsCont c2 && utf8Valid rest2
      | _ => false
    else if (0xE1 ≤ b && b ≤ 0xEC) || b == 0xEE || b == 0xEF then
      match rest with
      | c1 :: c2 :: rest2 => utf8IsCont c1 && utf8IsCont c2 && utf8Valid rest2
      | _ => false
    else if b == 0xED then
      match rest with
      | c1 :: c2 :: rest2 =>
        (0x80 ≤ c1 && c1 ≤ 0x9F) && utf8IsCont c2 && utf8Valid rest2
      | _ => false
    else if b == 0xF0 then
      match rest with
      | c1 :: c2 :: c3 :: rest3 =>
        (0x90 ≤ c1 && c1 ≤ 0xBF) && utf8IsCont c2 && utf8IsCont c3 &&
          utf8Valid rest3
      | _ => false
    else if 0xF1 ≤ b && b ≤ 0xF3 then
      match rest with
      | c1 :: c2 :: c3 :: rest3 =>
        utf8IsCont c1 && utf8IsCont c2 && utf8IsCont c3 && utf8Valid rest3
      | _ => false
    else if b == 0xF4 then
      match rest with
      | c1 :: c2 :: c3 :: rest3 =>
        (0x80 ≤ c1 && c1 ≤ 0x8F) && utf8IsCont c2 && utf8IsCont c3 &&
          utf8Valid rest3
      | _ => false
    else false

/-- `CStr::to_str`: `some` of the bytes when they are valid UTF-8, `none`
(an `Err(Utf8Error)`) otherwise. -/
def toStr (bytes : List Nat) : Option (List Nat) :=
  if utf8Valid bytes then some bytes else Option.none

/-- `Result::expect` as used at debug.rs:100 and debug.rs:105: the value on
success, a panic on failure. -/
def expect {α : Type} : Option α → PanicOr α
  | some a => PanicOr.ok a
  | Option.none => PanicOr.panicked

/-! ### Message decoding and the trampoline (debug.rs lines 85-136) -/

/-- The native event record `ash::vk::DebugUtilsMessengerCallbackDataEXT`,
restricted to the fields the trampoline reads: the nullable
`p_message_id_name` C string pointer and the `p_message` C string pointer.
A null pointer is `Option.none`; a non-null pointer is the pointee's
bytes. -/
structure DebugUtilsMessengerCallbackDataEXT where
  p_message_id_name : Option (List Nat)
  p_message : List Nat
  deriving DecidableEq, Repr

/-- `Message` (debug.rs:233-242): the structured message handed to the user
callback. Text fields hold the decoded (UTF-8-validated) bytes. -/
structure Message where
  severity : MessageSeverity
  ty : MessageType
  layer_prefix : Option (List Nat)
  description : List Nat
  deriving DecidableEq, Repr

/-- A user callback `Fn(&Message)`: it either returns normally or panics.
Its observable effect on the trampoline is captured by the `PanicOr Unit`
outcome. -/
def UserCallback : Type := Message → PanicOr Unit

/-- The decoding of the nullable `p_message_id_name` field
(debug.rs:94-101): `(*callback_data).p_message_id_name.as_ref().map(|n|
CStr::from_ptr(n).to_str().expect(..))`. A null pointer maps to `none`; a
panic inside the `map` closure propagates. -/
def decodeMsgIdName (p : Option (List Nat)) : PanicOr (Option (List Nat)) :=
  match p with
  | Option.none => PanicOr.ok Option.none
  | some bytes => PanicOr.bind (expect (toStr bytes)) fun s => PanicOr.ok (some s)

/-- The C-ABI trampoline `callback` (debug.rs:85-136). The opaque
`user_data` pointer round-trip (cast to `*mut Box<dyn Fn(&Message)>` and
back) is modelled by passing the user callback value itself. The result is
the invocation outcome: `panicked` when the trampoline itself panics (text
decoding failure, which happens before the `catch_unwind` guard), otherwise
`ok` of the list of messages the user callback was invoked with (in order)
and the trampoline's `Bool32` return value. A panic of the user callback is
swallowed by `catch_unwind` and so still yields `ok`. -/
def callback (severity : Nat) (ty : Nat)
    (callback_data : DebugUtilsMessengerCallbackDataEXT)
    (user_callback : UserCallback) : PanicOr (List Message × Nat) :=
  PanicOr.bind (decodeMsgIdName callback_data.p_message_id_name) fun lp =>
    PanicOr.bind (expect (toStr callback_data.p_message)) fun description =>
      let message : Message :=
        { severity := MessageSeverity.fromNativeBits severity
          ty := MessageType.fromNativeBits ty
          layer_prefix := lp
          description := description }
      let _ := catch_unwind (user_callback message)
      PanicOr.ok ([message], vkFALSE)

/-- One native event: the severity and type bitmask arguments and the event
record the native subsystem passes to the trampoline. -/
structure NativeEvent where
  severity : Nat
  ty : Nat
  callback_data : DebugUtilsMessengerCallbackDataEXT
  deriving DecidableEq, Repr

/-- A sequence of native events delivered to the same subscription: the
native subsystem calls the trampoline once per event; the trampoline holds
no state between calls, so each outcome depends only on its own event. -/
def deliverEvents (events : List NativeEvent) (user_callback : UserCallback) :
    List (PanicOr (List Message × Nat)) :=
  events.map fun e => callback e.severity e.ty e.callback_data user_callback

/-! ### Registration (`DebugCallback::new`, debug.rs lines 64-216) -/

/-- The owning `Instance`, restricted to what `DebugCallback::new` reads of
it. Modelled from the spec for the part outside this file:
`instance.enabled_extensions().ext_debug_utils` is the "required diagnostics
capability enabled" query of the context collaborator (spec section 6). -/
structure Instance where
  ext_debug_utils : Bool
  deriving DecidableEq, Repr

/-- `DebugCallbackCreationError` (debug.rs:416-419): its only variant. -/
inductive DebugCallbackCreationError where
  | MissingExtension : DebugCallbackCreationError
  deriving DecidableEq, Repr

/-- Modelled from the spec: `crate::Error`, the native error value returned
by a failed native call (the enum of Vulkan error codes lives outside this
file; only its identity matters here). -/
structure NativeError where
  code : Int
  deriving DecidableEq, Repr

/-- `impl From<Error> for DebugCallbackCreationError` (debug.rs:438-443):
`panic!("unexpected error: {:?}", err)` — the conversion used by the `?`
operator on a failed native call never produces a value; it panics. -/
def fromError (_err : NativeError) : PanicOr DebugCallbackCreationError :=
  PanicOr.panicked

/-- The native registration descriptor
`ash::vk::DebugUtilsMessengerCreateInfoEXT` (debug.rs:169-176), restricted
to the encoded filter bitmasks (the trampoline function pointer and the
user-data pointer carry no further information in this model). -/
structure DebugUtilsMessengerCreateInfoEXT where
  message_severity : Nat
  message_type : Nat
  deriving DecidableEq, Repr

/-- `DebugCallback` (debug.rs:58-62): the live subscription object. The
boxed user callback it also owns is tracked by `NewOutcome.callbackBoxLive`
instead of a field, to keep the structure's equality decidable. -/
structure DebugCallback where
  inst : Instance
  debug_report_callback : Nat
  deriving DecidableEq, Repr

/-- Observable outcome of one run of `DebugCallback::new`:
`result` is the returned value (or a panic); `nativeCreateCalls` counts
invocations of the native create entry point;
`createInfoPassed` is the registration descriptor handed to the native
create call, if any; `callbackBoxLive` tells whether the heap-allocated
(double-boxed) user-callback object is still allocated when `new` exits
(on the panic path the unwind drops the local box, releasing it). -/
structure NewOutcome where
  result : PanicOr (Except DebugCallbackCreationError DebugCallback)
  nativeCreateCalls : Nat
  createInfoPassed : Option DebugUtilsMessengerCreateInfoEXT
  callbackBoxLive : Bool

/-- `DebugCallback::new` (debug.rs:68-196). The native create entry point
`fns.ext_debug_utils.create_debug_utils_messenger_ext` composed with
`check_errors` is modelled as the parameter `nativeCreate` (a test double in
the spec's terms): it returns the new messenger handle or a native error.
Control flow mirrors the source: the extension check first (debug.rs:77-79,
no native call on failure); otherwise the callback is boxed, the filters are
encoded, the descriptor is built and the native create call issued; a
native error goes through `From<Error>`'s panic (debug.rs:187 `?` with
debug.rs:438-443), and the unwind drops the callback box. -/
def DebugCallback.new (inst : Instance) (severity : MessageSeverity)
    (ty : MessageType)
    (nativeCreate : DebugUtilsMessengerCreateInfoEXT → Except NativeError Nat)
    (_user_callback : UserCallback) : NewOutcome :=
  if !inst.ext_debug_utils then
    { result := PanicOr.ok (Except.error DebugCallbackCreationError.MissingExtension)
      nativeCreateCalls := 0
      createInfoPassed := Option.none
      callbackBoxLive := false }
  else
    let infos : DebugUtilsMessengerCreateInfoEXT :=
      { message_severity := MessageSeverity.toNativeBits severity
        message_type := MessageType.toNativeBits ty }
    match nativeCreate infos with
    | Except.error e =>
      match fromError e with
      | PanicOr.panicked =>
        { result := PanicOr.panicked
          nativeCreateCalls := 1
          createInfoPassed := some infos
          callbackBoxLive := false }
      | PanicOr.ok ce =>
        { result := PanicOr.ok (Except.error ce)
          nativeCreateCalls := 1
          createInfoPassed := some infos
          callbackBoxLive := false }
    | Except.ok handle =>
      { result := PanicOr.ok (Except.ok
          { inst := inst, debug_report_callback := handle })
        nativeCreateCalls := 1
        createInfoPassed := some infos
        callbackBoxLive := true }

/-- `DebugCallback::errors_and_warnings` (debug.rs:202-215): shortcut for
`new` with `MessageSeverity::errors_and_warnings()` and
`MessageType::general()`. -/
def DebugCallback.errors_and_warnings (inst : Instance)
    (nativeCreate : DebugUtilsMessengerCreateInfoEXT → Except NativeError Nat)
    (user_callback : UserCallback) : NewOutcome :=
  DebugCallback.new inst MessageSeverity.errors_and_warnings
    MessageType.generalOnly nativeCreate user_callback

deriving instance DecidableEq for Except

/-! ### Helper lemmas -/

/-- Evaluation of the trampoline on an event whose texts decode: the user
callback is invoked on exactly the decoded message and the trampoline
returns `VK_FALSE`, for any user callback (panicking or not). -/
theorem callback_eval (sev ty : Nat) (pid : Option (List Nat))
    (pmsg : List Nat) (cb : UserCallback)
    (hmsg : utf8Valid pmsg = true)
    (hid : ∀ b, pid = some b → utf8Valid b = true) :
    callback sev ty { p_message_id_name := pid, p_message := pmsg } cb
      = PanicOr.ok ([{ severity := MessageSeverity.fromNativeBits sev
                       ty := MessageType.fromNativeBits ty
                       layer_prefix := pid
                       description := pmsg }], vkFALSE) := by
  cases pid with
  | none =>
    simp [callback, decodeMsgIdName, PanicOr.bind, expect, toStr, hmsg]
  | some b =>
    have hb := hid b rfl
    simp [callback, decodeMsgIdName, PanicOr.bind, expect, toStr, hmsg, hb]

/-- Evaluation of the trampoline when a text fails UTF-8 validation: the
`expect` panic propagates out of the trampoline (it happens before the
`catch_unwind` guard). -/
theorem callback_panics_on_invalid (sev ty : Nat) (pid : Option (List Nat))
    (pmsg : List Nat) (cb : UserCallback)
    (h : utf8Valid pmsg = false ∨ ∃ b, pid = some b ∧ utf8Valid b = false) :
    callback sev ty { p_message_id_name := pid, p_message := pmsg } cb
      = PanicOr.panicked := by
  rcases h with hmsg | ⟨b, hb1, hb2⟩
  · cases pid with
    | none =>
      simp [callback, decodeMsgIdName, PanicOr.bind, expect, toStr, hmsg]
    | some b =>
      by_cases hb : utf8Valid b
      · simp [callback, decodeMsgIdName, PanicOr.bind, expect, toStr, hmsg, hb]
      · simp [callback, decodeMsgIdName, PanicOr.bind, expect, toStr, hb]
  · subst hb1
    simp [callback, decodeMsgIdName, PanicOr.bind, expect, toStr, hb2]

/-! ### Claims -/

/-- Claim C5: for every severity filter value and every type filter value,
decoding the bitmask produced by encoding the filter reconstructs exactly
the flags set in it: `fromNativeBits (toNativeBits f) = f` on both axes, so
the encode/decode pair is a bijection restricted to the defined bits (INFO,
WARNING, ERROR, VERBOSE for severity; GENERAL, VALIDATION, PERFORMANCE for
type). -/
theorem C5_bitmask_round_trip :
    (∀ f : MessageSeverity,
        MessageSeverity.fromNativeBits (MessageSeverity.toNativeBits f) = f)
    ∧ ∀ f : MessageType,
        MessageType.fromNativeBits (MessageType.toNativeBits f) = f := by
  decide

/-- Claim C6: for all filter values of both `MessageSeverity` and
`MessageType`, the `BitOr` union has each flag equal to the boolean or of
the operands' flags; it is commutative and associative; `none` is a right
identity and `all` a right absorber. -/
theorem C6_union_properties :
    (∀ a b : MessageSeverity, MessageSeverity.bitor a b =
        { error := a.error || b.error
          warning := a.warning || b.warning
          information := a.information || b.information
          verbose := a.verbose || b.verbose })
    ∧ (∀ a b : MessageSeverity,
        MessageSeverity.bitor a b = MessageSeverity.bitor b a)
    ∧ (∀ a b c : MessageSeverity,
        MessageSeverity.bitor (MessageSeverity.bitor a b) c
          = MessageSeverity.bitor a (MessageSeverity.bitor b c))
    ∧ (∀ x : MessageSeverity,
        MessageSeverity.bitor x MessageSeverity.none = x)
    ∧ (∀ x : MessageSeverity,
        MessageSeverity.bitor x MessageSeverity.all = MessageSeverity.all)
    ∧ (∀ a b : MessageType, MessageType.bitor a b =
        { general := a.general || b.general
          validation := a.validation || b.validation
          performance := a.performance || b.performance })
    ∧ (∀ a b : MessageType, MessageType.bitor a b = MessageType.bitor b a)
    ∧ (∀ a b c : MessageType,
        MessageType.bitor (MessageType.bitor a b) c
          = MessageType.bitor a (MessageType.bitor b c))
    ∧ (∀ x : MessageType, MessageType.bitor x MessageType.none = x)
    ∧ ∀ x : MessageType,
        MessageType.bitor x MessageType.all = MessageType.all := by
  decide

/-- Claim C8: an event record whose `p_message_id_name` pointer is null
decodes to a `Message` with an absent (`none`) `layer_prefix`; the null
pointer is never treated as an error — the trampoline completes normally
(no panic), delivers the message, and returns `VK_FALSE`. -/
theorem C8_null_id_name_is_absent (sev ty : Nat) (pmsg : List Nat)
    (cb : UserCallback) (hmsg : utf8Valid pmsg = true) :
    callback sev ty { p_message_id_name := Option.none, p_message := pmsg } cb
      = PanicOr.ok ([{ severity := MessageSeverity.fromNativeBits sev
                       ty := MessageType.fromNativeBits ty
                       layer_prefix := Option.none
                       description := pmsg }], vkFALSE) :=
  callback_eval sev ty Option.none pmsg cb hmsg (fun _b h => nomatch h)

/-- Witness for C8 at a concrete event: severity bits 16 (INFO), type bits
4 (PERFORMANCE), description bytes "hi", null identifier pointer. -/
theorem C8_witness :
    callback 16 4 { p_message_id_name := Option.none, p_message := [104, 105] }
        (fun _ => PanicOr.ok ())
      = PanicOr.ok ([{ severity := MessageSeverity.fromNativeBits 16
                       ty := MessageType.fromNativeBits 4
                       layer_prefix := Option.none
                       description := [104, 105] }], vkFALSE) :=
  C8_null_id_name_is_absent 16 4 [104, 105] (fun _ => PanicOr.ok ())
    (by decide)

/-- Claim C9: an event record whose description text — or whose non-null
identifier text — is not valid UTF-8 makes that trampoline invocation
fatal: the `expect` panic aborts the invocation (it occurs before the
`catch_unwind` guard), rather than delivering corrupt text or returning a
recoverable error. -/
theorem C9_invalid_utf8_is_fatal (sev ty : Nat)
    (dat : DebugUtilsMessengerCallbackDataEXT) (cb : UserCallback)
    (h : utf8Valid dat.p_message = false
        ∨ ∃ b, dat.p_message_id_name = some b ∧ utf8Valid b = false) :
    callback sev ty dat cb = PanicOr.panicked := by
  obtain ⟨pid, pmsg⟩ := dat
  exact callback_panics_on_invalid sev ty pid pmsg cb h

/-- Witness for C9 at a concrete event: description byte 0xFF is not valid
UTF-8, so the invocation panics. -/
theorem C9_witness :
    callback 0 0 { p_message_id_name := Option.none, p_message := [255] }
        (fun _ => PanicOr.ok ())
      = PanicOr.panicked :=
  C9_invalid_utf8_is_fatal 0 0
    { p_message_id_name := Option.none, p_message := [255] }
    (fun _ => PanicOr.ok ()) (Or.inl (by decide))

/-- Claim C2: a panic raised by the user callback during its invocation is
caught by the `catch_unwind` guard inside the trampoline and discarded: for
any event whose texts decode (the native contract, see C9) and any user
callback — including one that always panics — the trampoline invocation
returns normally (never `panicked`), and delivering further events to the
same subscription is unaffected (the trampoline is stateless, so the
outcome on the tail of an event sequence is the same sequence of
independent invocations). -/
theorem C2_user_panic_contained (sev ty : Nat)
    (dat : DebugUtilsMessengerCallbackDataEXT) (cb : UserCallback)
    (hmsg : utf8Valid dat.p_message = true)
    (hid : ∀ b, dat.p_message_id_name = some b → utf8Valid b = true) :
    (∃ m : Message, callback sev ty dat cb = PanicOr.ok ([m], vkFALSE))
    ∧ ∀ rest : List NativeEvent,
        deliverEvents ({ severity := sev, ty := ty, callback_data := dat } :: rest) cb
          = callback sev ty dat cb :: deliverEvents rest cb := by
  obtain ⟨pid, pmsg⟩ := dat
  exact ⟨⟨_, callback_eval sev ty pid pmsg cb hmsg hid⟩, fun _rest => rfl⟩

/-- Witness for C2 at a concrete event (ERROR severity, GENERAL type,
description "A") and a user callback that always panics: the invocation
still returns normally and the tail of any event sequence is delivered
unchanged. -/
theorem C2_witness :
    (∃ m : Message,
        callback 4096 1 { p_message_id_name := Option.none, p_message := [65] }
          (fun _ => PanicOr.panicked) = PanicOr.ok ([m], vkFALSE))
    ∧ ∀ rest : List NativeEvent,
        deliverEvents
            ({ severity := 4096, ty := 1
               callback_data :=
                { p_message_id_name := Option.none, p_message := [65] } } :: rest)
            (fun _ => PanicOr.panicked)
          = callback 4096 1 { p_message_id_name := Option.none, p_message := [65] }
              (fun _ => PanicOr.panicked)
            :: deliverEvents rest (fun _ => PanicOr.panicked) :=
  C2_user_panic_contained 4096 1
    { p_message_id_name := Option.none, p_message := [65] }
    (fun _ => PanicOr.panicked) (by decide) (fun _b h => nomatch h)

/-- Claim C4: the trampoline performs no filtering of its own. The embedded
trampoline `callback` takes no filter input at all (the registration
filters are only handed to the native side in `DebugCallback.new`), and for
every event whose texts decode it invokes the user callback exactly once —
the invocation list is the singleton `[m]` — with `m`'s severity and type
flags decoded from the event's own bitmasks and `m`'s description being the
event's own text. -/
theorem C4_trampoline_translates_only (sev ty : Nat)
    (dat : DebugUtilsMessengerCallbackDataEXT) (cb : UserCallback)
    (hmsg : utf8Valid dat.p_message = true)
    (hid : ∀ b, dat.p_message_id_name = some b → utf8Valid b = true) :
    callback sev ty dat cb
      = PanicOr.ok ([{ severity := MessageSeverity.fromNativeBits sev
                       ty := MessageType.fromNativeBits ty
                       layer_prefix := dat.p_message_id_name
                       description := dat.p_message }], vkFALSE) := by
  obtain ⟨pid, pmsg⟩ := dat
  exact callback_eval sev ty pid pmsg cb hmsg hid

/-- Witness for C4 at a concrete event: INFO severity bits, VALIDATION type
bits, identifier "a", description "B". -/
theorem C4_witness :
    callback 16 2 { p_message_id_name := some [97], p_message := [66] }
        (fun _ => PanicOr.ok ())
      = PanicOr.ok ([{ severity := MessageSeverity.fromNativeBits 16
                       ty := MessageType.fromNativeBits 2
                       layer_prefix := some [97]
                       description := [66] }], vkFALSE) :=
  C4_trampoline_translates_only 16 2
    { p_message_id_name := some [97], p_message := [66] }
    (fun _ => PanicOr.ok ()) (by decide)
    (by intro b h; injection h with h2; subst h2; decide)

/-- Claim C7: whenever the trampoline returns (for any event contents and
any user callback, panicking or not), the returned `Bool32` status is the
fixed `VK_FALSE` ("not handled / continue"), so it never suppresses other
listeners. -/
theorem C7_always_returns_vk_false (sev ty : Nat)
    (dat : DebugUtilsMessengerCallbackDataEXT) (cb : UserCallback)
    (msgs : List Message) (r : Nat)
    (h : callback sev ty dat cb = PanicOr.ok (msgs, r)) : r = vkFALSE := by
  obtain ⟨pid, pmsg⟩ := dat
  by_cases hm : utf8Valid pmsg
  · have he := callback_eval sev ty pid pmsg cb hm
    by_cases hex : ∃ b, pid = some b ∧ utf8Valid b = false
    · rw [callback_panics_on_invalid sev ty pid pmsg cb (Or.inr hex)] at h
      exact absurd h (by simp)
    · have hid : ∀ b, pid = some b → utf8Valid b = true := by
        intro b hb
        by_contra hc
        exact hex ⟨b, hb, by simpa using hc⟩
      rw [he hid] at h
      exact (congrArg Prod.snd (PanicOr.ok.inj h)).symm
  · rw [callback_panics_on_invalid sev ty pid pmsg cb
        (Or.inl (by simpa using hm))] at h
    exact absurd h (by simp)

/-- Witness for C7 at a concrete invocation: the trampoline on an empty
description with a normally-returning callback returns status 0, and the
theorem identifies that status with `VK_FALSE`. -/
theorem C7_witness : (0 : Nat) = vkFALSE :=
  C7_always_returns_vk_false 0 0
    { p_message_id_name := Option.none, p_message := [] }
    (fun _ => PanicOr.ok ())
    [{ severity := MessageSeverity.fromNativeBits 0
       ty := MessageType.fromNativeBits 0
       layer_prefix := Option.none
       description := [] }] 0 rfl

/-- Claim C1 counterexample: with the extension enabled and the native
create call failing with error code -4, `DebugCallback::new` does not
propagate the native error to its caller — the `From<Error>` conversion
invoked by the `?` operator panics, so the result is a panic, not an
`Err` (and the only `Err` value the return type can carry at all is
`MissingExtension`, which is not produced here either). -/
theorem C1_counterexample :
    (DebugCallback.new { ext_debug_utils := true } MessageSeverity.all
        MessageType.all (fun _ => Except.error { code := -4 })
        (fun _ => PanicOr.ok ())).result = PanicOr.panicked
    ∧ (DebugCallback.new { ext_debug_utils := true } MessageSeverity.all
        MessageType.all (fun _ => Except.error { code := -4 })
        (fun _ => PanicOr.ok ())).result
      ≠ PanicOr.ok (Except.error DebugCallbackCreationError.MissingExtension) := by
  exact ⟨rfl, by decide⟩

/-- Claim C1 (amended): if the native "create" registration call fails,
`DebugCallback::new` panics — the `From<Error>` impl used by the `?`
operator is `panic!("unexpected error: ...")` (debug.rs:438-443) — instead
of returning the native error to its caller; exactly one native create call
was made, and the heap-allocated user-callback box is released during the
unwind, so the failure path does not leak the callback allocation. -/
theorem C1_native_failure_panics (inst : Instance)
    (severity : MessageSeverity) (ty : MessageType)
    (nativeCreate : DebugUtilsMessengerCreateInfoEXT → Except NativeError Nat)
    (ucb : UserCallback) (e : NativeError)
    (hext : inst.ext_debug_utils = true)
    (hfail : ∀ info, nativeCreate info = Except.error e) :
    (DebugCallback.new inst severity ty nativeCreate ucb).result
        = PanicOr.panicked
    ∧ (DebugCallback.new inst severity ty nativeCreate ucb).nativeCreateCalls
        = 1
    ∧ (DebugCallback.new inst severity ty nativeCreate ucb).callbackBoxLive
        = false := by
  obtain ⟨ext⟩ := inst
  subst hext
  refine ⟨?_, ?_, ?_⟩ <;> simp [DebugCallback.new, hfail, fromError]

/-- Witness for the amended C1 at a concrete failing native create call
(error code -1). -/
theorem C1_witness :
    (DebugCallback.new { ext_debug_utils := true } MessageSeverity.none
        MessageType.none (fun _ => Except.error { code := -1 })
        (fun _ => PanicOr.ok ())).result = PanicOr.panicked
    ∧ (DebugCallback.new { ext_debug_utils := true } MessageSeverity.none
        MessageType.none (fun _ => Except.error { code := -1 })
        (fun _ => PanicOr.ok ())).nativeCreateCalls = 1
    ∧ (DebugCallback.new { ext_debug_utils := true } MessageSeverity.none
        MessageType.none (fun _ => Except.error { code := -1 })
        (fun _ => PanicOr.ok ())).callbackBoxLive = false :=
  C1_native_failure_panics { ext_debug_utils := true } MessageSeverity.none
    MessageType.none (fun _ => Except.error { code := -1 })
    (fun _ => PanicOr.ok ()) { code := -1 } rfl (fun _ => rfl)

/-- Claim C3: on an instance without the `ext_debug_utils` extension
enabled, for every severity filter, type filter, user callback and native
create entry point, `DebugCallback::new` returns
`Err(MissingExtension)` and performs zero native calls — no registration
descriptor is passed and the native create entry point is never invoked
(the whole `NewOutcome` record equals the no-native-activity one). -/
theorem C3_missing_extension_no_native_call (inst : Instance)
    (severity : MessageSeverity) (ty : MessageType)
    (nativeCreate : DebugUtilsMessengerCreateInfoEXT → Except NativeError Nat)
    (ucb : UserCallback)
    (hext : inst.ext_debug_utils = false) :
    DebugCallback.new inst severity ty nativeCreate ucb
      = { result :=
            PanicOr.ok (Except.error DebugCallbackCreationError.MissingExtension)
          nativeCreateCalls := 0
          createInfoPassed := Option.none
          callbackBoxLive := false } := by
  obtain ⟨ext⟩ := inst
  subst hext
  rfl

/-- Witness for C3 at a concrete disabled instance. -/
theorem C3_witness :
    DebugCallback.new { ext_debug_utils := false } MessageSeverity.all
        MessageType.all (fun _ => Except.ok 5) (fun _ => PanicOr.ok ())
      = { result :=
            PanicOr.ok (Except.error DebugCallbackCreationError.MissingExtension)
          nativeCreateCalls := 0
          createInfoPassed := Option.none
          callbackBoxLive := false } :=
  C3_missing_extension_no_native_call { ext_debug_utils := false }
    MessageSeverity.all MessageType.all (fun _ => Except.ok 5)
    (fun _ => PanicOr.ok ()) rfl

/-- Claim C10: `DebugCallback::errors_and_warnings` registers with severity
flags exactly {error, warning} and message-type flags exactly {general}: it
is `new` applied to `MessageSeverity::errors_and_warnings()` =
{error, warning} and `MessageType::general()` = {general} — so it
subscribes only to general-type messages, not validation or performance —
and on an enabled instance the registration descriptor it passes to the
native create call carries exactly the ERROR|WARNING severity bits and the
GENERAL type bit. -/
theorem C10_errors_and_warnings_registration :
    MessageSeverity.errors_and_warnings
        = { error := true, warning := true, information := false
            verbose := false }
    ∧ MessageType.generalOnly
        = { general := true, validation := false, performance := false }
    ∧ (∀ (inst : Instance)
        (nc : DebugUtilsMessengerCreateInfoEXT → Except NativeError Nat)
        (ucb : UserCallback),
        DebugCallback.errors_and_warnings inst nc ucb
          = DebugCallback.new inst MessageSeverity.errors_and_warnings
              MessageType.generalOnly nc ucb)
    ∧ ∀ (nc : DebugUtilsMessengerCreateInfoEXT → Except NativeError Nat)
        (ucb : UserCallback),
        (DebugCallback.errors_and_warnings { ext_debug_utils := true }
            nc ucb).createInfoPassed
          = some { message_severity := SEVERITY_ERROR ||| SEVERITY_WARNING
                   message_type := TYPE_GENERAL } := by
  refine ⟨rfl, rfl, fun _inst _nc _ucb => rfl, fun nc ucb => ?_⟩
  show (DebugCallback.new { ext_debug_utils := true }
      MessageSeverity.errors_and_warnings MessageType.generalOnly nc
      ucb).createInfoPassed
    = some { message_severity := SEVERITY_ERROR ||| SEVERITY_WARNING
             message_type := TYPE_GENERAL }
  unfold DebugCallback.new
  cases hnc : nc
      { message_severity :=
          MessageSeverity.toNativeBits MessageSeverity.errors_and_warnings,
        message_type := MessageType.toNativeBits MessageType.generalOnly } with
  | error e =>
    simp only [hnc, fromError]
    try rfl
  | ok handle =>
    simp only [hnc]
    try rfl

end VkDebug
